import Mathlib

/-!
Verification development for the AutoSage repository: a shallow embedding of
`src/autosage/runner.py`, `src/autosage/tools/ngspice.py` and
`src/autosage/server.py`, together with theorems settling the specification
claims about them.

Modelling conventions:
* Python values flowing through JSON payloads are embedded as `PyVal`
  (null, bool, int, str, list, dict with string keys).  Python's `bool` is a
  subclass of `int`, so `isinstance(x, int)` is true for booleans; `pyIsInt`
  mirrors that.
* The operating system around the runner (the child process's behaviour, the
  scratch directory contents after a run, the contents of a log file) is an
  explicit "world" argument: a `SpawnResult` describing how `subprocess.Popen`
  and the subsequent select/read loop behave, a `List DirEntry` for the
  directory listing, an `Option String` for `validate.log`.
* Wall-clock instants are carried in milliseconds as naturals supplied by the
  world (the value of `time.monotonic() - start` observed at the top of each
  loop iteration, and the length of time the final `process.wait()` blocks).
* Byte strings are `List Nat`; decoding `bytes.decode("utf-8", errors =
  "replace")` is modelled byte-per-char (every byte is below 0x110000, so
  `Char.ofNat` is lossless here); no claim inspects multi-byte decoding.
-/

/-- Embedded Python/JSON value. -/
inductive PyVal where
  | null
  | bool (b : Bool)
  | int (n : Int)
  | str (s : String)
  | list (xs : List PyVal)
  | dict (kvs : List (String × PyVal))

/-- Python truthiness (`bool(x)`): None, False, 0, "", [], {} are falsy. -/
def pyTruthy : PyVal → Bool
  | .null => false
  | .bool b => b
  | .int n => n != 0
  | .str s => s != ""
  | .list xs => !xs.isEmpty
  | .dict kvs => !kvs.isEmpty

/-- Dictionary lookup (`d.get(key)`); keys are assumed distinct, the first
binding wins. -/
def pyLookup (key : String) (kvs : List (String × PyVal)) : Option PyVal :=
  (kvs.find? (fun p => p.1 == key)).map (·.2)

/-- `isinstance(v, int)` — in Python this is also true of booleans, because
`bool` is a subclass of `int`. -/
def pyIsInt : PyVal → Bool
  | .int _ => true
  | .bool _ => true
  | _ => false

/-- Numeric value of a Python integer (booleans count as 0/1). -/
def pyToInt : PyVal → Int
  | .int n => n
  | .bool b => if b then 1 else 0
  | _ => 0

/-- `isinstance(v, dict)`. -/
def pyIsDict : PyVal → Bool
  | .dict _ => true
  | _ => false

/-- `v == s` for a string literal `s`: true only when `v` is that string. -/
def pyIsStrEq (v : PyVal) (s : String) : Bool :=
  match v with
  | .str t => t == s
  | _ => false

/-- Python `a or b` restricted to the defaulting idiom `x or {}`. -/
def pyOrElse (a b : PyVal) : PyVal :=
  if pyTruthy a then a else b

/-- Python `str.strip()`: whitespace removed from both ends. -/
def pyStrip (s : String) : String :=
  ⟨((s.toList.dropWhile Char.isWhitespace).reverse.dropWhile
      Char.isWhitespace).reverse⟩

namespace AutoSage

/-! ## `src/autosage/runner.py` -/

/-- The `RunnerError` exception: classified failure with type, message and a
free-form details mapping. -/
structure RunnerError where
  errorType : String
  message : String
  details : List (String × PyVal)

/-- The two output channels of the child process. -/
inductive Channel where
  | stdout
  | stderr
deriving DecidableEq

/-- Termination signals sent to the child on the timeout path:
`process.terminate()` and `process.kill()`. -/
inductive TermAction where
  | terminate
  | kill
deriving DecidableEq

/-- One iteration of the runner's select loop, as seen from the outside:
the elapsed wall time (ms) observed at the top of the iteration, the readiness
events `selector.select` reports (channel plus the chunk `os.read` would
return, `[]` meaning end-of-file), and whether `process.poll()` reports the
process as already exited at this iteration. -/
structure Iter where
  elapsed_ms : Nat
  events : List (Channel × List Nat)
  pollExited : Bool

/-- Outcome of `subprocess.Popen` plus the child's subsequent behaviour:
either a start failure, or a started process described by its loop schedule,
its exit code, how long the final `process.wait()` (runner.py line 105)
blocks, the total elapsed time at return, and whether it exits within the
0.5 s grace period after `terminate()` on the timeout path. -/
inductive SpawnResult where
  | fileNotFound
  | osError (msg : String)
  | started (iters : List Iter) (exitCode : Int) (finalWaitMs : Nat)
      (totalElapsedMs : Nat) (exitsInGrace : Bool)

/-- Mutable state of the read loop: capture buffers, truncation flags,
selector registration of each stream, plus (ghost, for specification only)
the full byte sequence delivered by each stream so far. -/
structure LoopState where
  outBuf : List Nat
  errBuf : List Nat
  outTrunc : Bool
  errTrunc : Bool
  outReg : Bool
  errReg : Bool
  outRead : List Nat
  errRead : List Nat

def initLoopState : LoopState :=
  ⟨[], [], false, false, true, true, [], []⟩

/-- Handle one readiness event (runner.py lines 78–103): a chunk read from a
stream.  An event on an unregistered stream cannot be reported by the selector
and is ignored; an empty chunk unregisters the stream; otherwise up to the
remaining capacity of the stream's byte cap is appended and the truncation
flag is set when the chunk overflows it. -/
def step1 (max_stdout_bytes max_stderr_bytes : Int) (st : LoopState)
    (ev : Channel × List Nat) : LoopState :=
  match ev with
  | (.stdout, chunk) =>
    if st.outReg = false then st
    else if chunk = [] then { st with outReg := false }
    else
      let remaining : Int := max_stdout_bytes - st.outBuf.length
      { st with
        outBuf := if 0 < remaining then st.outBuf ++ chunk.take remaining.toNat else st.outBuf,
        outTrunc := if remaining < (chunk.length : Int) then true else st.outTrunc,
        outRead := st.outRead ++ chunk }
  | (.stderr, chunk) =>
    if st.errReg = false then st
    else if chunk = [] then { st with errReg := false }
    else
      let remaining : Int := max_stderr_bytes - st.errBuf.length
      { st with
        errBuf := if 0 < remaining then st.errBuf ++ chunk.take remaining.toNat else st.errBuf,
        errTrunc := if remaining < (chunk.length : Int) then true else st.errTrunc,
        errRead := st.errRead ++ chunk }

def processEvents (max_stdout_bytes max_stderr_bytes : Int) (st : LoopState)
    (evs : List (Channel × List Nat)) : LoopState :=
  evs.foldl (step1 max_stdout_bytes max_stderr_bytes) st

/-- Result of the read loop: either the wall-clock timeout fired, or the loop
ended normally (both streams closed, or no pending data with the process
already exited — an exhausted schedule means the process has exited and is
silent from that point on). -/
inductive LoopRes where
  | timedOut
  | finished (st : LoopState)

/-- The `while selector.get_map():` loop of runner.py lines 60–103. -/
def runLoop (timeout_ms max_stdout_bytes max_stderr_bytes : Int) :
    List Iter → LoopState → LoopRes
  | [], st => .finished st
  | i :: rest, st =>
    if st.outReg = false ∧ st.errReg = false then .finished st
    else if timeout_ms ≤ (i.elapsed_ms : Int) then .timedOut
    else if i.events = [] ∧ i.pollExited = true then .finished st
    else runLoop timeout_ms max_stdout_bytes max_stderr_bytes rest
        (processEvents max_stdout_bytes max_stderr_bytes st i.events)

/-- Successful result of `run_process` before text decoding: raw captured
bytes, truncation flags, exit code and elapsed time, plus (ghost) the bytes
each stream delivered. -/
structure RunOutput where
  stdoutRaw : List Nat
  stderrRaw : List Nat
  stdoutTrunc : Bool
  stderrTrunc : Bool
  exitCode : Int
  elapsed_ms : Nat
  stdoutRead : List Nat
  stderrRead : List Nat

/-- Full observable outcome of one `run_process` call: the returned value or
raised `RunnerError`, whether a process was actually spawned, the termination
signals sent, and (ghost) how long the final `process.wait()` blocked. -/
structure RunResultR where
  result : Except RunnerError RunOutput
  spawned : Bool
  termActions : List TermAction
  finalWaitMs : Nat

/-- `run_process(argv, cwd, timeout_ms, max_stdout_bytes, max_stderr_bytes)`
(runner.py lines 18–114), with the child's behaviour supplied by `world`. -/
def run_process (argv : List String) (cwd : String)
    (timeout_ms max_stdout_bytes max_stderr_bytes : Int)
    (world : SpawnResult) : RunResultR :=
  if argv = [] then
    ⟨.error ⟨"invalid_request", "argv must not be empty.", []⟩, false, [], 0⟩
  else if timeout_ms ≤ 0 then
    ⟨.error ⟨"invalid_request", "timeout_ms must be > 0.", []⟩, false, [], 0⟩
  else if max_stdout_bytes ≤ 0 ∨ max_stderr_bytes ≤ 0 then
    ⟨.error ⟨"invalid_request", "max stdout/stderr byte limits must be > 0.", []⟩, false, [], 0⟩
  else
    match world with
    | .fileNotFound =>
      ⟨.error ⟨"process_not_found", "Executable not found: " ++ argv.headD "",
        [("argv0", .str (argv.headD ""))]⟩, false, [], 0⟩
    | .osError msg =>
      ⟨.error ⟨"process_start_failed", msg,
        [("argv", .str (String.intercalate " " argv))]⟩, false, [], 0⟩
    | .started iters exitCode finalWaitMs totalElapsedMs exitsInGrace =>
      match runLoop timeout_ms max_stdout_bytes max_stderr_bytes iters initLoopState with
      | .timedOut =>
        ⟨.error ⟨"timeout",
          "Process exceeded timeout of " ++ toString timeout_ms ++ " ms.",
          [("timeout_ms", .int timeout_ms)]⟩,
         true,
         .terminate :: (if exitsInGrace then [] else [.kill]),
         0⟩
      | .finished st =>
        ⟨.ok ⟨st.outBuf, st.errBuf, st.outTrunc, st.errTrunc, exitCode,
          totalElapsedMs, st.outRead, st.errRead⟩, true, [], finalWaitMs⟩

/-- Byte-level model of `bytes.decode("utf-8", errors="replace")`; faithful
for the ASCII output the claims speak about. -/
def decodeBytes (bs : List Nat) : String :=
  ⟨bs.map Char.ofNat⟩

/-- Decoded stdout text with the truncation marker (runner.py lines 107–110). -/
def stdout_text (o : RunOutput) : String :=
  decodeBytes o.stdoutRaw ++ (if o.stdoutTrunc then "\n[stdout truncated]" else "")

/-- Decoded stderr text with the truncation marker (runner.py lines 108–112). -/
def stderr_text (o : RunOutput) : String :=
  decodeBytes o.stderrRaw ++ (if o.stderrTrunc then "\n[stderr truncated]" else "")

/-! ## `src/autosage/tools/ngspice.py` -/

namespace Ngspice

/-- The merged limits record; the Python code keeps these in a dict whose
values are only ever used as numbers. -/
structure Limits where
  timeout_ms : Int
  max_stdout_bytes : Int
  max_stderr_bytes : Int
  max_file_bytes : Int
deriving DecidableEq

/-- `DEFAULT_LIMITS` (ngspice.py lines 12–17). -/
def DEFAULT_LIMITS : Limits :=
  ⟨10000, 1000000, 1000000, 10000000⟩

/-- Keys of `DEFAULT_LIMITS`, in dict insertion order. -/
def defaultLimitKeys : List String :=
  ["timeout_ms", "max_stdout_bytes", "max_stderr_bytes", "max_file_bytes"]

/-- `merged[key] = value` for a known key. -/
def setLimit (m : Limits) (key : String) (v : Int) : Limits :=
  if key = "timeout_ms" then { m with timeout_ms := v }
  else if key = "max_stdout_bytes" then { m with max_stdout_bytes := v }
  else if key = "max_stderr_bytes" then { m with max_stderr_bytes := v }
  else if key = "max_file_bytes" then { m with max_file_bytes := v }
  else m

/-- `_build_limits(limits)` (ngspice.py lines 22–28): start from the
defaults and, when the caller supplied a truthy mapping, overwrite each known
key that is present with an `isinstance(·, int)` value. -/
def _build_limits (limits : Option (List (String × PyVal))) : Limits :=
  let merged := DEFAULT_LIMITS
  match limits with
  | none => merged
  | some kvs =>
    if kvs.isEmpty then merged
    else
      defaultLimitKeys.foldl
        (fun m key =>
          match pyLookup key kvs with
          | some v => if pyIsInt v then setLimit m key (pyToInt v) else m
          | none => m)
        merged

/-- A collected output file: `{name, mime, bytes_base64}`. -/
structure FileArtifact where
  name : String
  mime : String
  bytes_base64 : String

/-- A directory entry as the adapter sees it: name, whether it is a regular
file, and its content bytes (its size is the content length). -/
structure DirEntry where
  name : String
  isFile : Bool
  content : List Nat

/-- `pathlib.PurePath.suffix`: the final component's extension, from the last
dot on, empty when the dot is leading or trailing or absent. -/
def pathSuffix (name : String) : String :=
  let cs := name.toList
  match ((cs.enum.filter (fun p => p.2 = '.')).getLast?).map (·.1) with
  | some i => if 0 < i ∧ i + 1 < cs.length then ⟨cs.drop i⟩ else ""
  | none => ""

/-- ASCII lowercasing, modelling `str.lower()` on the strings at hand. -/
def lowerStr (s : String) : String :=
  ⟨s.toList.map Char.toLower⟩

/-- `ALLOWED_FILE_EXTENSIONS` (ngspice.py line 19). -/
def ALLOWED_FILE_EXTENSIONS : List String :=
  [".log", ".raw", ".txt"]

/-- `mimetypes.guess_type(name)[0]`, modelled on the extensions that can
reach it (collection filters to `.log`/`.raw`/`.txt` first): the stdlib table
maps `.txt` to `text/plain` and has no entry for `.log` or `.raw`; matching
is case-insensitive on the extension. -/
def guessMime (name : String) : Option String :=
  if lowerStr (pathSuffix name) = ".txt" then some "text/plain" else none

def b64Alphabet : List Char :=
  "ABCDEFGHIJKLMNOPQRSTUVWXYZabcdefghijklmnopqrstuvwxyz0123456789+/".toList

def b64Char (n : Nat) : Char :=
  b64Alphabet.getD n 'A'

/-- Standard base64 of a byte string (`base64.b64encode(data).decode("ascii")`). -/
def base64Encode : List Nat → List Char
  | [] => []
  | [a] =>
    [b64Char (a / 4), b64Char (a % 4 * 16), '=', '=']
  | [a, b] =>
    [b64Char (a / 4), b64Char (a % 4 * 16 + b / 16), b64Char (b % 16 * 4), '=']
  | a :: b :: c :: rest =>
    b64Char (a / 4) :: b64Char (a % 4 * 16 + b / 16) ::
      b64Char (b % 16 * 4 + c / 64) :: b64Char (c % 64) :: base64Encode rest

/-- `sorted(workdir.iterdir(), key=lambda p: p.name)`: Python's stable sort
by name under code-point string order. -/
def sortByName (entries : List DirEntry) : List DirEntry :=
  List.insertionSort (fun a b => a.name ≤ b.name) entries

/-- The body of `_collect_files`'s loop (ngspice.py lines 63–79): skip
non-files, disallowed extensions and oversized files; keep name, guessed MIME
(defaulting to application/octet-stream) and base64 content. -/
def collectLoop (max_file_bytes : Int) : List DirEntry → List FileArtifact
  | [] => []
  | e :: rest =>
    if e.isFile = false then collectLoop max_file_bytes rest
    else if (lowerStr (pathSuffix e.name)) ∉ ALLOWED_FILE_EXTENSIONS then
      collectLoop max_file_bytes rest
    else if max_file_bytes < (e.content.length : Int) then
      collectLoop max_file_bytes rest
    else
      ⟨e.name, (guessMime e.name).getD "application/octet-stream",
        ⟨base64Encode e.content⟩⟩ :: collectLoop max_file_bytes rest

/-- `_collect_files(workdir, max_file_bytes)` (ngspice.py lines 61–80). -/
def _collect_files (workdir : List DirEntry) (max_file_bytes : Int) :
    List FileArtifact :=
  collectLoop max_file_bytes (sortByName workdir)

/-- Python `str.splitlines()` restricted to the `\n`, `\r\n` and `\r` line
boundaries: no trailing empty line is produced. -/
def splitlinesAux : List Char → List Char → List (List Char)
  | [], acc => if acc.isEmpty then [] else [acc]
  | '\r' :: '\n' :: rest, acc => acc :: splitlinesAux rest []
  | '\n' :: rest, acc => acc :: splitlinesAux rest []
  | '\r' :: rest, acc => acc :: splitlinesAux rest []
  | c :: rest, acc => splitlinesAux rest (acc ++ [c])

def splitlines (s : String) : List String :=
  (splitlinesAux s.toList []).map (fun cs => ⟨cs⟩)

/-- `sub in line` on strings: some contiguous run of `line` equals `sub`. -/
def containsSub (sub line : String) : Bool :=
  line.toList.tails.any (fun t => sub.toList.isPrefixOf t)

/-- `_log_has_errors(log_text)` (ngspice.py lines 83–85). -/
def _log_has_errors (log_text : String) : Bool :=
  ((splitlines log_text).map lowerStr).any
    (fun line => containsSub "error:" line || containsSub "fatal" line)

/-- `_log_relevant_excerpt(log_text, limit_lines)` (ngspice.py lines 88–93). -/
def _log_relevant_excerpt (log_text : String) (limit_lines : Nat) : String :=
  let lines := splitlines log_text
  let relevant := lines.filter
    (fun line => containsSub "error:" (lowerStr line) || containsSub "fatal" (lowerStr line))
  if !relevant.isEmpty then
    String.intercalate "\n" (relevant.take limit_lines)
  else
    String.intercalate "\n" (lines.take limit_lines)

/-- The `metrics` object of a response envelope. -/
structure Metrics where
  elapsed_ms : Int
  exit_code : Int

/-- The `error` object of a response envelope. -/
structure ErrObj where
  type : String
  message : String
  details : List (String × PyVal)

/-- The uniform response envelope `{ok, stdout, stderr, files, metrics, error}`. -/
structure Envelope where
  ok : Bool
  stdout : String
  stderr : String
  files : List FileArtifact
  metrics : Metrics
  error : Option ErrObj

/-- `_error_response(error_type, message, details)` (ngspice.py lines 31–39). -/
def _error_response (error_type message : String)
    (details : List (String × PyVal)) : Envelope :=
  ⟨false, "", "", [], ⟨0, -1⟩, some ⟨error_type, message, details⟩⟩

/-- `_response(ok, stdout, stderr, files, elapsed_ms, exit_code, error)`
(ngspice.py lines 42–58). -/
def _response (ok : Bool) (stdout stderr : String) (files : List FileArtifact)
    (elapsed_ms exit_code : Int) (error : Option ErrObj) : Envelope :=
  ⟨ok, stdout, stderr, files, ⟨elapsed_ms, exit_code⟩, error⟩

/-- Ghost record of one `run_process` call made by an adapter operation:
the argv used and whether a process was spawned. -/
structure Call where
  argv : List String
  spawned : Bool

/-- `version`'s single envelope construction after the optional retry
(ngspice.py lines 116–125): `ok = exit_code == 0`, no files, and on failure
the `process_failed` error. -/
def version_finalize (o : RunOutput) : Envelope :=
  _response (o.exitCode == 0) (stdout_text o) (stderr_text o) []
    (o.elapsed_ms : Int) o.exitCode
    (if o.exitCode == 0 then none
     else some ⟨"process_failed", "ngspice version command failed.", []⟩)

/-- `version(limits)` (ngspice.py lines 96–127).  `w1` is the world of the
`ngspice -v` invocation, `w2` of the `ngspice -V` retry; the second component
lists the runner calls made. -/
def version (limits : Option (List (String × PyVal)))
    (w1 w2 : SpawnResult) : Envelope × List Call :=
  let cfg := _build_limits limits
  let r1 := run_process ["ngspice", "-v"] "tmp" cfg.timeout_ms
    cfg.max_stdout_bytes cfg.max_stderr_bytes w1
  let c1 : Call := ⟨["ngspice", "-v"], r1.spawned⟩
  match r1.result with
  | .error exc => (_error_response exc.errorType exc.message exc.details, [c1])
  | .ok o1 =>
    if o1.exitCode ≠ 0 then
      let r2 := run_process ["ngspice", "-V"] "tmp" cfg.timeout_ms
        cfg.max_stdout_bytes cfg.max_stderr_bytes w2
      let c2 : Call := ⟨["ngspice", "-V"], r2.spawned⟩
      match r2.result with
      | .error exc => (_error_response exc.errorType exc.message exc.details, [c1, c2])
      | .ok o2 => (version_finalize o2, [c1, c2])
    else (version_finalize o1, [c1])

/-- `smoketest(limits)` (ngspice.py lines 130–162).  `dir` is the scratch
directory contents after the run. -/
def smoketest (limits : Option (List (String × PyVal)))
    (w : SpawnResult) (dir : List DirEntry) : Envelope × List Call :=
  let cfg := _build_limits limits
  let r := run_process ["ngspice", "-b", "-r", "smoke.raw", "-o", "smoke.log", "smoke.cir"]
    "tmp" cfg.timeout_ms cfg.max_stdout_bytes cfg.max_stderr_bytes w
  let c : Call := ⟨["ngspice", "-b", "-r", "smoke.raw", "-o", "smoke.log", "smoke.cir"], r.spawned⟩
  match r.result with
  | .error exc => (_error_response exc.errorType exc.message exc.details, [c])
  | .ok o =>
    let files := _collect_files dir cfg.max_file_bytes
    let ok := o.exitCode == 0 && !files.isEmpty
    (_response ok (stdout_text o) (stderr_text o) files (o.elapsed_ms : Int) o.exitCode
      (if ok then none else some ⟨"process_failed", "ngspice smoketest failed.", []⟩),
     [c])

/-- `validate_netlist(netlist_text, limits)` (ngspice.py lines 165–195).
`log` is the content of `validate.log` when the file exists, `dir` the
scratch directory contents after the run. -/
def validate_netlist (netlist_text : PyVal)
    (limits : Option (List (String × PyVal)))
    (w : SpawnResult) (log : Option String) (dir : List DirEntry) :
    Envelope × List Call :=
  let cfg := _build_limits limits
  match netlist_text with
  | .str s =>
    if pyStrip s = "" then
      (_error_response "invalid_input" "netlist_text must be a non-empty string." [], [])
    else
      let r := run_process ["ngspice", "-b", "-o", "validate.log", "input.cir"]
        "tmp" cfg.timeout_ms cfg.max_stdout_bytes cfg.max_stderr_bytes w
      let c : Call := ⟨["ngspice", "-b", "-o", "validate.log", "input.cir"], r.spawned⟩
      match r.result with
      | .error exc => (_error_response exc.errorType exc.message exc.details, [c])
      | .ok o =>
        let log_text := log.getD ""
        let has_log_errors := _log_has_errors log_text
        let ok := o.exitCode == 0 && !has_log_errors
        let files := _collect_files dir cfg.max_file_bytes
        let error : Option ErrObj :=
          if ok then none
          else some ⟨"validation_failed", "ngspice reported validation errors.",
            [("exit_code", .int o.exitCode)] ++
              (if log_text ≠ "" then
                [("log_excerpt", .str (_log_relevant_excerpt log_text 50))]
               else [])⟩
        (_response ok (stdout_text o) (stderr_text o) files (o.elapsed_ms : Int)
          o.exitCode error, [c])
  | _ =>
    (_error_response "invalid_input" "netlist_text must be a non-empty string." [], [])

end Ngspice

/-! ## `src/autosage/server.py` -/

namespace Server

open Ngspice

/-- `error_response(error_type, message, details)` (server.py lines 25–33);
structurally identical to the adapter's `_error_response`. -/
def error_response (error_type message : String)
    (details : List (String × PyVal)) : Envelope :=
  ⟨false, "", "", [], ⟨0, -1⟩, some ⟨error_type, message, details⟩⟩

/-- The external behaviour an adapter operation dispatched by `handle_run`
can observe: the worlds of up to two runner calls, the `validate.log`
content, and the scratch directory contents. -/
structure OpWorld where
  run1 : SpawnResult
  run2 : SpawnResult
  log : Option String
  dir : List DirEntry

/-- `handle_run(payload)` (server.py lines 36–60). -/
def handle_run (payload : PyVal) (w : OpWorld) : Envelope :=
  match payload with
  | .dict kvs =>
    let tool := (pyLookup "tool" kvs).getD .null
    let op := (pyLookup "op" kvs).getD .null
    let inputs := pyOrElse ((pyLookup "inputs" kvs).getD .null) (.dict [])
    let limits := pyOrElse ((pyLookup "limits" kvs).getD .null) (.dict [])
    if !pyIsStrEq tool "ngspice" then
      error_response "unknown_tool" "Unsupported tool." [("tool", tool)]
    else if !(pyIsStrEq op "version" || pyIsStrEq op "smoketest" ||
        pyIsStrEq op "validate_netlist") then
      error_response "unknown_op" "Unsupported operation." [("op", op)]
    else
      match inputs with
      | .dict ikvs =>
        match limits with
        | .dict lkvs =>
          if pyIsStrEq op "version" then
            (Ngspice.version (some lkvs) w.run1 w.run2).1
          else if pyIsStrEq op "smoketest" then
            (Ngspice.smoketest (some lkvs) w.run1 w.dir).1
          else
            (Ngspice.validate_netlist ((pyLookup "netlist_text" ikvs).getD .null)
              (some lkvs) w.run1 w.log w.dir).1
        | _ => error_response "invalid_request" "limits must be an object." []
      | _ => error_response "invalid_request" "inputs must be an object." []
  | _ => error_response "invalid_request" "Request body must be a JSON object." []

end Server

/-! ## Claim-side (specification wording) definitions -/

namespace Spec

open Ngspice

/-- Spec wording for the limits merge: the override value when the key is
present with an integer value, the default otherwise. -/
def overrideOrDefault (kvs : List (String × PyVal)) (key : String)
    (dflt : Int) : Int :=
  match pyLookup key kvs with
  | some v => if pyIsInt v then pyToInt v else dflt
  | none => dflt

/-- Spec wording for file collection: an entry is kept exactly when it is a
regular file, its extension (lowercased) is allowed, and its size does not
exceed `max_file_bytes`. -/
def collectKeeps (max_file_bytes : Int) (e : DirEntry) : Bool :=
  e.isFile && decide (lowerStr (pathSuffix e.name) ∈ ALLOWED_FILE_EXTENSIONS)
    && decide ((e.content.length : Int) ≤ max_file_bytes)

/-- Spec wording for `version`: the retry with `ngspice -V` happens exactly
when the first invocation returned (did not raise) with a non-zero exit code. -/
def versionRetries (r : RunResultR) : Bool :=
  match r.result with
  | .ok o => o.exitCode != 0
  | .error _ => false

/-- Spec wording for `version`: the runner result the final envelope is
computed from (the retry's result when the retry happened). -/
def versionFinalResult (r1 r2 : RunResultR) : Except RunnerError RunOutput :=
  if versionRetries r1 then r2.result else r1.result

/-- Spec wording for the implicit claim on non-positive limits: the
operation's envelope reports `invalid_request` with zeroed metrics, and none
of its runner calls spawned a process. -/
def noSpawnInvalidRequest (p : Ngspice.Envelope × List Ngspice.Call) : Prop :=
  p.1.ok = false
  ∧ p.1.error.map (·.type) = some "invalid_request"
  ∧ p.1.metrics = ⟨0, -1⟩
  ∧ ∀ c ∈ p.2, c.spawned = false

end Spec

/-! ## Helper lemmas -/

section Helpers

open Ngspice Spec

/-- A violated `run_process` precondition yields `invalid_request`, spawns
nothing, and never consults the world. -/
theorem run_process_guard (argv : List String) (cwd : String)
    (t mo me : Int) (w : SpawnResult)
    (h : argv = [] ∨ t ≤ 0 ∨ mo ≤ 0 ∨ me ≤ 0) :
    (∃ e, (run_process argv cwd t mo me w).result = .error e
        ∧ e.errorType = "invalid_request")
    ∧ (run_process argv cwd t mo me w).spawned = false
    ∧ ∀ w', run_process argv cwd t mo me w' = run_process argv cwd t mo me w := by
  by_cases h1 : argv = []
  · simp [run_process, h1]
  · rcases h with h | h | h
    · exact absurd h h1
    · simp [run_process, h1, if_pos h]
    · by_cases h2 : t ≤ 0
      · simp [run_process, h1, h2]
      · simp [run_process, h1, h2, if_pos h]

/-- Single lookup prepended with a different key. -/
theorem pyLookup_cons_ne (k : String) (v : PyVal)
    (kvs : List (String × PyVal)) (key : String) (h : k ≠ key) :
    pyLookup key ((k, v) :: kvs) = pyLookup key kvs := by
  have hb : (k == key) = false := by
    simpa using h
  simp [pyLookup, List.find?, hb]

/-- `_build_limits` computes, field by field, the override-or-default value. -/
theorem build_limits_eq (kvs : List (String × PyVal)) :
    _build_limits (some kvs) =
      ⟨overrideOrDefault kvs "timeout_ms" 10000,
       overrideOrDefault kvs "max_stdout_bytes" 1000000,
       overrideOrDefault kvs "max_stderr_bytes" 1000000,
       overrideOrDefault kvs "max_file_bytes" 10000000⟩ := by
  by_cases hk : kvs.isEmpty
  · have hnil : kvs = [] := List.isEmpty_iff.mp hk
    subst hnil
    rfl
  · simp only [_build_limits, hk, Bool.false_eq_true, if_false,
      defaultLimitKeys, List.foldl, overrideOrDefault]
    rcases h1 : pyLookup "timeout_ms" kvs with _ | v1 <;>
      rcases h2 : pyLookup "max_stdout_bytes" kvs with _ | v2 <;>
        rcases h3 : pyLookup "max_stderr_bytes" kvs with _ | v3 <;>
          rcases h4 : pyLookup "max_file_bytes" kvs with _ | v4 <;>
            simp only [h1, h2, h3, h4] <;>
              (try split_ifs) <;>
                simp_all [setLimit, DEFAULT_LIMITS]

/-- Prepending an unknown key leaves the merged limits unchanged. -/
theorem build_limits_unknown_key (k : String) (v : PyVal)
    (kvs : List (String × PyVal)) (hk : k ∉ defaultLimitKeys) :
    _build_limits (some ((k, v) :: kvs)) = _build_limits (some kvs) := by
  simp only [defaultLimitKeys, List.mem_cons, List.not_mem_nil, or_false,
    not_or] at hk
  obtain ⟨hk1, hk2, hk3, hk4⟩ := hk
  rw [build_limits_eq, build_limits_eq]
  simp only [overrideOrDefault,
    pyLookup_cons_ne k v kvs "timeout_ms" hk1,
    pyLookup_cons_ne k v kvs "max_stdout_bytes" hk2,
    pyLookup_cons_ne k v kvs "max_stderr_bytes" hk3,
    pyLookup_cons_ne k v kvs "max_file_bytes" hk4]

/-- The `version` envelope satisfies the error/ok invariant. -/
theorem version_error_ok_iff (limits : Option (List (String × PyVal)))
    (w1 w2 : SpawnResult) :
    ((version limits w1 w2).1.error.isSome = true
      ↔ (version limits w1 w2).1.ok = false) := by
  have hfin : ∀ o : RunOutput,
      ((version_finalize o).error.isSome = true ↔ (version_finalize o).ok = false) := by
    intro o
    simp only [version_finalize, _response]
    split_ifs with hb <;> simp_all
  simp only [version]
  split
  · simp [_error_response]
  · split_ifs
    · split
      · simp [_error_response]
      · exact hfin _
    · exact hfin _

/-- The `smoketest` envelope satisfies the error/ok invariant. -/
theorem smoketest_error_ok_iff (limits : Option (List (String × PyVal)))
    (w : SpawnResult) (dir : List DirEntry) :
    ((smoketest limits w dir).1.error.isSome = true
      ↔ (smoketest limits w dir).1.ok = false) := by
  simp only [smoketest]
  split
  · simp [_error_response]
  · simp only [_response]
    split_ifs with hb <;> simp_all

/-- The `validate_netlist` envelope satisfies the error/ok invariant. -/
theorem validate_error_ok_iff (netlist_text : PyVal)
    (limits : Option (List (String × PyVal)))
    (w : SpawnResult) (log : Option String) (dir : List DirEntry) :
    ((validate_netlist netlist_text limits w log dir).1.error.isSome = true
      ↔ (validate_netlist netlist_text limits w log dir).1.ok = false) := by
  cases netlist_text with
  | str s =>
    simp only [validate_netlist]
    by_cases htrim : pyStrip s = ""
    · simp [htrim, _error_response]
    · simp only [if_neg htrim]
      split
      · simp [_error_response]
      · simp only [_response]
        split_ifs <;> simp_all
  | null => simp [validate_netlist, _error_response]
  | bool b => simp [validate_netlist, _error_response]
  | int n => simp [validate_netlist, _error_response]
  | list xs => simp [validate_netlist, _error_response]
  | dict kvs => simp [validate_netlist, _error_response]

/-- The `handle_run` envelope satisfies the error/ok invariant. -/
theorem handle_run_error_ok_iff (payload : PyVal) (w : Server.OpWorld) :
    ((Server.handle_run payload w).error.isSome = true
      ↔ (Server.handle_run payload w).ok = false) := by
  cases payload with
  | dict kvs =>
    simp only [Server.handle_run]
    split_ifs <;>
      first
      | (simp [Server.error_response]; done)
      | (split
         · split
           · first
             | exact version_error_ok_iff _ _ _
             | exact smoketest_error_ok_iff _ _ _
             | exact validate_error_ok_iff _ _ _ _ _
           · simp [Server.error_response]
         · simp [Server.error_response])
  | null => simp [Server.handle_run, Server.error_response]
  | bool b => simp [Server.handle_run, Server.error_response]
  | int n => simp [Server.handle_run, Server.error_response]
  | str s => simp [Server.handle_run, Server.error_response]
  | list xs => simp [Server.handle_run, Server.error_response]

/-- Invariant tying a capture buffer to the bytes delivered so far: the
buffer holds the first `cap` bytes delivered and the truncation flag records
whether more than `cap` bytes were delivered. -/
def capInv (cap : Int) (buf read : List Nat) (tr : Bool) : Prop :=
  buf = read.take cap.toNat ∧ (tr = true ↔ cap < (read.length : Int))

/-- Both channels of a loop state satisfy their cap invariant. -/
def capInv2 (mo me : Int) (st : LoopState) : Prop :=
  capInv mo st.outBuf st.outRead st.outTrunc
  ∧ capInv me st.errBuf st.errRead st.errTrunc

/-- One capped append step preserves the cap invariant. -/
theorem capInv_extend (cap : Int) (hcap : 0 < cap) (buf read chunk : List Nat)
    (tr : Bool) (hc : chunk ≠ []) (h : capInv cap buf read tr) :
    capInv cap
      (if 0 < cap - (buf.length : Int) then
        buf ++ chunk.take (cap - (buf.length : Int)).toNat else buf)
      (read ++ chunk)
      (if cap - (buf.length : Int) < (chunk.length : Int) then true else tr) := by
  obtain ⟨hbuf, htr⟩ := h
  subst hbuf
  have hchunk : 0 < chunk.length := List.length_pos.mpr hc
  have hlen : (read.take cap.toNat).length = min cap.toNat read.length :=
    List.length_take _ _
  by_cases hr : read.length < cap.toNat
  · have htake : read.take cap.toNat = read := List.take_of_length_le (le_of_lt hr)
    rw [htake]
    constructor
    · rw [if_pos (by omega)]
      rw [List.take_append_eq_append_take, List.take_of_length_le (le_of_lt hr)]
      have h2 : (cap - (read.length : Int)).toNat = cap.toNat - read.length := by
        omega
      rw [h2]
    · by_cases hover : cap - (read.length : Int) < (chunk.length : Int)
      · rw [if_pos hover]
        simp only [List.length_append]
        constructor
        · intro _; push_cast; omega
        · intro _; trivial
      · rw [if_neg hover]
        simp only [List.length_append]
        constructor
        · intro htrue
          have := htr.mp htrue
          push_cast
          omega
        · intro hlt
          exfalso
          push_cast at hlt
          omega
  · have hmin : min cap.toNat read.length = cap.toNat := min_eq_left (by omega)
    have hzero : cap - ((read.take cap.toNat).length : Int) = 0 := by
      rw [hlen, hmin]; omega
    constructor
    · rw [hzero]
      rw [if_neg (by omega)]
      rw [List.take_append_eq_append_take]
      have h0 : cap.toNat - read.length = 0 := by omega
      rw [h0]
      simp
    · rw [hzero]
      rw [if_pos (by exact_mod_cast hchunk)]
      simp only [List.length_append]
      constructor
      · intro _; push_cast; omega
      · intro _; trivial

/-- `step1` preserves the two-channel cap invariant. -/
theorem step1_capInv2 (mo me : Int) (hmo : 0 < mo) (hme : 0 < me)
    (st : LoopState) (ev : Channel × List Nat)
    (h : capInv2 mo me st) : capInv2 mo me (step1 mo me st ev) := by
  obtain ⟨ho, he⟩ := h
  obtain ⟨ch, chunk⟩ := ev
  cases ch
  case stdout =>
    by_cases hreg : st.outReg = false
    · simpa [step1, hreg] using ⟨ho, he⟩
    · by_cases hc : chunk = []
      · simpa [step1, hreg, hc] using ⟨ho, he⟩
      · refine ⟨?_, by simpa [step1, hreg, hc] using he⟩
        simpa [step1, hreg, hc] using
          capInv_extend mo hmo st.outBuf st.outRead chunk st.outTrunc hc ho
  case stderr =>
    by_cases hreg : st.errReg = false
    · simpa [step1, hreg] using ⟨ho, he⟩
    · by_cases hc : chunk = []
      · simpa [step1, hreg, hc] using ⟨ho, he⟩
      · refine ⟨by simpa [step1, hreg, hc] using ho, ?_⟩
        simpa [step1, hreg, hc] using
          capInv_extend me hme st.errBuf st.errRead chunk st.errTrunc hc he

/-- `processEvents` preserves the two-channel cap invariant. -/
theorem processEvents_capInv2 (mo me : Int) (hmo : 0 < mo) (hme : 0 < me)
    (evs : List (Channel × List Nat)) : ∀ st : LoopState,
    capInv2 mo me st → capInv2 mo me (processEvents mo me st evs) := by
  induction evs with
  | nil => intro st h; exact h
  | cons ev rest ih =>
    intro st h
    simp only [processEvents, List.foldl_cons] at *
    exact ih _ (step1_capInv2 mo me hmo hme st ev h)

/-- The loop's normal exit preserves the two-channel cap invariant. -/
theorem runLoop_capInv2 (t mo me : Int) (hmo : 0 < mo) (hme : 0 < me)
    (iters : List Iter) : ∀ st st' : LoopState,
    capInv2 mo me st →
    runLoop t mo me iters st = .finished st' → capInv2 mo me st' := by
  induction iters with
  | nil =>
    intro st st' h heq
    simp only [runLoop] at heq
    cases heq
    exact h
  | cons i rest ih =>
    intro st st' h heq
    simp only [runLoop] at heq
    split_ifs at heq <;>
      first
      | (cases heq; exact h)
      | exact LoopRes.noConfusion heq
      | exact LoopRes.noConfusion heq.symm
      | exact ih _ _ (processEvents_capInv2 mo me hmo hme i.events st h) heq

/-- The initial loop state satisfies the cap invariant. -/
theorem capInv2_init (mo me : Int) (hmo : 0 < mo) (hme : 0 < me) :
    capInv2 mo me initLoopState := by
  refine ⟨⟨by simp [initLoopState], ?_⟩, ⟨by simp [initLoopState], ?_⟩⟩ <;>
    simp [initLoopState] <;> omega

/-- Registration flags after one iteration's events: an end-of-file chunk
unregisters its stream (an event on an already-unregistered stream is
skipped), other events leave registration unchanged. -/
def regsAfter : Bool × Bool → List (Channel × List Nat) → Bool × Bool
  | regs, [] => regs
  | (ro, re), (.stdout, chunk) :: rest => regsAfter (ro && !chunk.isEmpty, re) rest
  | (ro, re), (.stderr, chunk) :: rest => regsAfter (ro, re && !chunk.isEmpty) rest

/-- The loop, started with the given registration flags and run on this
schedule, reaches the timeout branch: some iteration's elapsed time reaches
the timeout while at least one stream is still registered, before the loop
ends (both streams closed, or a quiet iteration with the process already
exited, or the schedule exhausted).  Conditions appear in the same order as
in `runLoop`; either stream may be closed along the way. -/
def reachesTimeout (t : Int) : Bool × Bool → List Iter → Bool
  | _, [] => false
  | (ro, re), i :: rest =>
    if ro = false ∧ re = false then false
    else if t ≤ (i.elapsed_ms : Int) then true
    else if i.events = [] ∧ i.pollExited = true then false
    else reachesTimeout t (regsAfter (ro, re) i.events) rest

/-- `processEvents` changes the registration flags exactly as `regsAfter`
says, independently of the buffers. -/
theorem processEvents_regs (mo me : Int) (evs : List (Channel × List Nat)) :
    ∀ st : LoopState,
    ((processEvents mo me st evs).outReg, (processEvents mo me st evs).errReg)
      = regsAfter (st.outReg, st.errReg) evs := by
  induction evs with
  | nil => intro st; rfl
  | cons ev rest ih =>
    intro st
    obtain ⟨ch, chunk⟩ := ev
    cases ch
    case stdout =>
      simp only [processEvents, List.foldl_cons] at *
      rw [ih (step1 mo me st (.stdout, chunk))]
      simp only [regsAfter]
      congr 1
      cases hro : st.outReg
      · by_cases hc : chunk = [] <;> simp [step1, hro, hc]
      · by_cases hc : chunk = [] <;> simp [step1, hro, hc]
    case stderr =>
      simp only [processEvents, List.foldl_cons] at *
      rw [ih (step1 mo me st (.stderr, chunk))]
      simp only [regsAfter]
      congr 1
      cases hre : st.errReg
      · by_cases hc : chunk = [] <;> simp [step1, hre, hc]
      · by_cases hc : chunk = [] <;> simp [step1, hre, hc]

/-- Whenever `reachesTimeout` holds of a state's registration flags, the
loop run from that state ends in the timeout branch. -/
theorem runLoop_timedOut_of_reaches (t mo me : Int) (iters : List Iter) :
    ∀ st : LoopState,
    reachesTimeout t (st.outReg, st.errReg) iters = true →
    runLoop t mo me iters st = .timedOut := by
  induction iters with
  | nil =>
    intro st h
    exact absurd h (by simp [reachesTimeout])
  | cons i rest ih =>
    intro st h
    simp only [reachesTimeout] at h
    simp only [runLoop]
    split_ifs at h with h1 h2 h3
    · rw [if_neg h1, if_pos h2]
    · rw [if_neg h1, if_neg h2, if_neg h3]
      apply ih
      rw [processEvents_regs]
      exact h

instance : IsTotal DirEntry (fun a b => a.name ≤ b.name) :=
  ⟨fun a b => le_total a.name b.name⟩

instance : IsTrans DirEntry (fun a b => a.name ≤ b.name) :=
  ⟨fun _ _ _ h1 h2 => le_trans h1 h2⟩

/-- The collection loop is the filter of kept entries mapped to artifacts. -/
theorem collectLoop_eq (m : Int) (l : List DirEntry) :
    collectLoop m l = (l.filter (collectKeeps m)).map
      (fun e => ⟨e.name, (guessMime e.name).getD "application/octet-stream",
        ⟨base64Encode e.content⟩⟩) := by
  induction l with
  | nil => rfl
  | cons e rest ih =>
    by_cases h1 : e.isFile = true
    · by_cases h2 : lowerStr (pathSuffix e.name) ∈ ALLOWED_FILE_EXTENSIONS
      · by_cases h3 : (e.content.length : Int) ≤ m
        · have hnot : ¬ m < (e.content.length : Int) := not_lt.mpr h3
          simp [collectLoop, collectKeeps, h1, h2, h3, hnot, ih, List.filter_cons]
        · have hlt : m < (e.content.length : Int) := not_le.mp h3
          simp [collectLoop, collectKeeps, h1, h2, h3, hlt, ih, List.filter_cons]
      · simp [collectLoop, collectKeeps, h1, h2, ih, List.filter_cons]
    · simp [collectLoop, collectKeeps, h1, ih, List.filter_cons]

/-- The collected artifacts are sorted ascending by name. -/
theorem collect_files_sorted (d : List DirEntry) (m : Int) :
    List.Sorted (fun a b : FileArtifact => a.name ≤ b.name) (_collect_files d m) := by
  have hs : List.Sorted (fun a b : DirEntry => a.name ≤ b.name) (sortByName d) :=
    List.sorted_insertionSort _ d
  rw [_collect_files, collectLoop_eq]
  exact List.pairwise_map.mpr (hs.filter _)

end Helpers

/-! ## Claim theorems -/

section Claims

open Ngspice Spec

/-- C5: every call to `run_process` with an empty argv, or a non-positive
`timeout_ms`, or a non-positive stdout or stderr byte cap, fails with a
`RunnerError` of type `invalid_request` before any process is spawned (no
spawn happens, and the outcome does not depend on the outside world at all). -/
theorem run_process_precondition_invalid_request (argv : List String)
    (cwd : String) (t mo me : Int) (w : SpawnResult)
    (h : argv = [] ∨ t ≤ 0 ∨ mo ≤ 0 ∨ me ≤ 0) :
    (∃ e, (run_process argv cwd t mo me w).result = .error e
        ∧ e.errorType = "invalid_request")
    ∧ (run_process argv cwd t mo me w).spawned = false
    ∧ ∀ w', run_process argv cwd t mo me w' = run_process argv cwd t mo me w :=
  run_process_guard argv cwd t mo me w h

/-- Witness for C5 at the concrete input `argv = []`. -/
theorem run_process_precondition_invalid_request_witness :
    (∃ e, (run_process [] "/scratch" 1000 10 10 .fileNotFound).result = .error e
        ∧ e.errorType = "invalid_request")
    ∧ (run_process [] "/scratch" 1000 10 10 .fileNotFound).spawned = false := by
  have h := run_process_precondition_invalid_request [] "/scratch" 1000 10 10
    .fileNotFound (Or.inl rfl)
  exact ⟨h.1, h.2.1⟩

/-- C8: the effective limits are the defaults `{timeout_ms: 10000,
max_stdout_bytes: 1000000, max_stderr_bytes: 1000000, max_file_bytes:
10000000}` with a default replaced exactly when the same key is present in
the override with an integer value (Python booleans are integers); unknown
keys and non-integer values are ignored. -/
theorem build_limits_merges_over_defaults :
    (∀ kvs, _build_limits (some kvs) =
      ⟨overrideOrDefault kvs "timeout_ms" 10000,
       overrideOrDefault kvs "max_stdout_bytes" 1000000,
       overrideOrDefault kvs "max_stderr_bytes" 1000000,
       overrideOrDefault kvs "max_file_bytes" 10000000⟩)
    ∧ (∀ (k : String) (v : PyVal) (kvs : List (String × PyVal)),
        k ∉ defaultLimitKeys →
          _build_limits (some ((k, v) :: kvs)) = _build_limits (some kvs)) :=
  ⟨build_limits_eq, build_limits_unknown_key⟩

/-- Witness for C8: an unknown key is ignored and a known integer key
overrides its default. -/
theorem build_limits_merges_over_defaults_witness :
    _build_limits (some [("mystery_key", PyVal.int 5)]) = _build_limits (some [])
    ∧ _build_limits (some [("timeout_ms", PyVal.int 7)])
        = ⟨7, 1000000, 1000000, 10000000⟩ := by
  refine ⟨build_limits_merges_over_defaults.2 "mystery_key" (.int 5) [] (by decide), ?_⟩
  rw [build_limits_merges_over_defaults.1 [("timeout_ms", PyVal.int 7)]]
  rfl

/-- C2: for every envelope produced by the adapter operations (`version`,
`smoketest`, `validate_netlist`) and by the dispatcher (`handle_run`), the
`error` field is present (a `{type, message, details}` object) exactly when
`ok` is false. -/
theorem envelope_error_present_iff_not_ok :
    (∀ limits w1 w2, ((version limits w1 w2).1.error.isSome = true
      ↔ (version limits w1 w2).1.ok = false))
    ∧ (∀ limits w dir, ((smoketest limits w dir).1.error.isSome = true
      ↔ (smoketest limits w dir).1.ok = false))
    ∧ (∀ netlist_text limits w log dir,
        ((validate_netlist netlist_text limits w log dir).1.error.isSome = true
          ↔ (validate_netlist netlist_text limits w log dir).1.ok = false))
    ∧ (∀ payload w, ((Server.handle_run payload w).error.isSome = true
      ↔ (Server.handle_run payload w).ok = false)) :=
  ⟨version_error_ok_iff, smoketest_error_ok_iff, validate_error_ok_iff,
    handle_run_error_ok_iff⟩

/-- C9: the collected files list has an entry exactly for each regular file
whose lowercased extension is one of `.log`, `.raw`, `.txt` and whose size
does not exceed `max_file_bytes`; entries are ordered ascending by file
name, and each entry carries the file's name, the MIME type guessed from its
extension (defaulting to `application/octet-stream`), and the full content
base64-encoded. -/
theorem collect_files_filters_and_sorts (d : List DirEntry) (m : Int) :
    _collect_files d m = ((sortByName d).filter (collectKeeps m)).map
        (fun e => ⟨e.name, (guessMime e.name).getD "application/octet-stream",
          ⟨base64Encode e.content⟩⟩)
    ∧ List.Sorted (fun a b : FileArtifact => a.name ≤ b.name) (_collect_files d m) :=
  ⟨collectLoop_eq m (sortByName d), collect_files_sorted d m⟩

/-- C4: whenever `run_process` returns, each captured raw stream is exactly
the first `max_*_bytes` bytes the stream delivered, the truncation flag is
set exactly when the stream delivered more than the cap (so once set by a
first overflow it can never be cleared), and the decoded text is the decoded
raw bytes followed by the literal truncation marker exactly when the flag is
set, and by nothing more. -/
theorem run_process_truncates_to_caps
    (argv : List String) (cwd : String) (t mo me : Int) (world : SpawnResult)
    (out : RunOutput)
    (hok : (run_process argv cwd t mo me world).result = .ok out) :
    out.stdoutRaw = out.stdoutRead.take mo.toNat
    ∧ (out.stdoutTrunc = true ↔ mo < (out.stdoutRead.length : Int))
    ∧ out.stderrRaw = out.stderrRead.take me.toNat
    ∧ (out.stderrTrunc = true ↔ me < (out.stderrRead.length : Int))
    ∧ stdout_text out = decodeBytes out.stdoutRaw
        ++ (if out.stdoutTrunc then "\n[stdout truncated]" else "")
    ∧ stderr_text out = decodeBytes out.stderrRaw
        ++ (if out.stderrTrunc then "\n[stderr truncated]" else "") := by
  unfold run_process at hok
  by_cases h1 : argv = []
  · rw [if_pos h1] at hok
    exact absurd hok (by simp)
  · rw [if_neg h1] at hok
    by_cases h2 : t ≤ 0
    · rw [if_pos h2] at hok
      exact absurd hok (by simp)
    · rw [if_neg h2] at hok
      by_cases h3 : mo ≤ 0 ∨ me ≤ 0
      · rw [if_pos h3] at hok
        exact absurd hok (by simp)
      · rw [if_neg h3] at hok
        have hmo : 0 < mo := by omega
        have hme : 0 < me := by omega
        cases world with
        | fileNotFound => exact absurd hok (by simp)
        | osError msg => exact absurd hok (by simp)
        | started iters ec fw te ge =>
          dsimp only at hok
          cases hl : runLoop t mo me iters initLoopState with
          | timedOut =>
            rw [hl] at hok
            exact absurd hok (by simp)
          | finished st =>
            rw [hl] at hok
            have hout : out = ⟨st.outBuf, st.errBuf, st.outTrunc, st.errTrunc,
                ec, te, st.outRead, st.errRead⟩ := by
              simpa using hok.symm
            subst hout
            have hinv := runLoop_capInv2 t mo me hmo hme iters initLoopState st
              (capInv2_init mo me hmo hme) hl
            obtain ⟨⟨ho1, ho2⟩, he1, he2⟩ := hinv
            exact ⟨ho1, ho2, he1, he2, rfl, rfl⟩

/-- Witness for C4: a child that emits 5 bytes against a 3-byte stdout cap
is captured as exactly the first 3 bytes with the truncation flag set. -/
theorem run_process_truncates_to_caps_witness :
    (([1, 2, 3] : List Nat) = ([1, 2, 3, 4, 5] : List Nat).take (3 : Int).toNat)
    ∧ (true = true ↔ (3 : Int) < ((([1, 2, 3, 4, 5] : List Nat).length : Int))) := by
  have h := run_process_truncates_to_caps ["x"] "/scratch" 1000 3 3
    (.started [⟨0, [(.stdout, [1, 2, 3, 4, 5])], false⟩] 0 0 7 true)
    ⟨[1, 2, 3], [], true, false, 0, 7, [1, 2, 3, 4, 5], []⟩ rfl
  exact ⟨h.1, h.2.1⟩

/-- C1 (amended): with valid arguments and a started process, whenever the
schedule drives the loop to an iteration whose elapsed wall time reaches
`timeout_ms` while at least one output stream is still registered — earlier
iterations may close either stream or both in any order, as long as the loop
has not ended — `run_process` terminates the process, kills it exactly when
it does not exit within the 0.5 s grace period, and raises a `timeout`
`RunnerError` whose details carry the configured `timeout_ms`, returning no
partial output and never reaching the final process-exit wait. -/
theorem run_process_timeout_kills_and_raises
    (argv : List String) (cwd : String) (t mo me : Int)
    (iters : List Iter) (ec : Int) (fw te : Nat) (ge : Bool)
    (hargv : argv ≠ []) (ht : 0 < t) (hmo : 0 < mo) (hme : 0 < me)
    (hfire : reachesTimeout t (true, true) iters = true) :
    run_process argv cwd t mo me (.started iters ec fw te ge)
      = ⟨.error ⟨"timeout",
            "Process exceeded timeout of " ++ toString t ++ " ms.",
            [("timeout_ms", .int t)]⟩,
          true,
          .terminate :: (if ge then [] else [.kill]),
          0⟩ := by
  unfold run_process
  rw [if_neg hargv, if_neg (by omega), if_neg (by omega)]
  dsimp only
  rw [runLoop_timedOut_of_reaches t mo me iters initLoopState hfire]

/-- Witness for C1: the child closes stdout immediately but keeps stderr
open and sleeps past a 100 ms timeout; it is terminated, then killed (it
ignores the grace period), and the call raises `timeout` with `timeout_ms`
in the details. -/
theorem run_process_timeout_kills_and_raises_witness :
    run_process ["sleep", "10"] "/scratch" 100 8 8
        (.started [⟨0, [(.stdout, [])], false⟩, ⟨150, [], false⟩] 0 0 0 false)
      = ⟨.error ⟨"timeout",
            "Process exceeded timeout of " ++ toString (100 : Int) ++ " ms.",
            [("timeout_ms", .int 100)]⟩,
          true, [.terminate, .kill], 0⟩ := by
  have h := run_process_timeout_kills_and_raises ["sleep", "10"] "/scratch"
    100 8 8 [⟨0, [(.stdout, [])], false⟩, ⟨150, [], false⟩] 0 0 0 false
    (by simp) (by omega) (by omega) (by omega) (by decide)
  simpa using h

/-- Counterexample for C1 as stated: a child that closes both output streams
immediately but keeps running for 100 s makes `run_process` return normally
while its final `process.wait()` (runner.py line 105, called with no timeout
argument) blocks for 100 s — far beyond the 1 s configured timeout — so the
final process-exit wait is not capped by the configured timeout. -/
theorem run_process_final_wait_not_capped :
    (∃ o, (run_process ["prog"] "/scratch" 1000 10 10
        (.started [⟨0, [(.stdout, []), (.stderr, [])], false⟩]
          0 100000 100000 true)).result = .ok o)
    ∧ (run_process ["prog"] "/scratch" 1000 10 10
        (.started [⟨0, [(.stdout, []), (.stderr, [])], false⟩]
          0 100000 100000 true)).finalWaitMs = 100000
    ∧ (1000 : Nat) < 100000 := by
  refine ⟨⟨⟨[], [], false, false, 0, 100000, [], []⟩, rfl⟩, rfl, by norm_num⟩

/-- C3: for a netlist that is non-empty after trimming, when the runner
returns without raising, `validate_netlist`'s envelope has `ok` = (exit code
is 0 and no log line contains, case-insensitively, `error:` or `fatal`); on
failure the error is `validation_failed` with the fixed message, details
carrying the exit code and a `log_excerpt` exactly when the log had content,
the excerpt being up to 50 matching lines or the first 50 lines when none
matched; files are collected into the envelope success or failure alike. -/
theorem validate_netlist_checks_exit_and_log
    (s : String) (limits : Option (List (String × PyVal)))
    (w : SpawnResult) (log : Option String) (dir : List DirEntry)
    (out : RunOutput)
    (hs : pyStrip s ≠ "")
    (hok : (run_process ["ngspice", "-b", "-o", "validate.log", "input.cir"] "tmp"
        (_build_limits limits).timeout_ms (_build_limits limits).max_stdout_bytes
        (_build_limits limits).max_stderr_bytes w).result = .ok out) :
    (validate_netlist (.str s) limits w log dir).1.ok
      = (out.exitCode == 0 && !((splitlines (log.getD "")).any (fun line =>
          containsSub "error:" (lowerStr line) || containsSub "fatal" (lowerStr line))))
    ∧ (validate_netlist (.str s) limits w log dir).1.files
        = _collect_files dir (_build_limits limits).max_file_bytes
    ∧ ((validate_netlist (.str s) limits w log dir).1.ok = false →
        (validate_netlist (.str s) limits w log dir).1.error
          = some ⟨"validation_failed", "ngspice reported validation errors.",
              [("exit_code", .int out.exitCode)] ++
                (if log.getD "" ≠ "" then
                  [("log_excerpt", .str (_log_relevant_excerpt (log.getD "") 50))]
                 else [])⟩)
    ∧ ((validate_netlist (.str s) limits w log dir).1.ok = true →
        (validate_netlist (.str s) limits w log dir).1.error = none)
    ∧ (validate_netlist (.str s) limits w log dir).1.metrics
        = ⟨(out.elapsed_ms : Int), out.exitCode⟩
    ∧ _log_relevant_excerpt (log.getD "") 50
        = (if !((splitlines (log.getD "")).filter (fun line =>
              containsSub "error:" (lowerStr line)
                || containsSub "fatal" (lowerStr line))).isEmpty then
            String.intercalate "\n" (((splitlines (log.getD "")).filter (fun line =>
              containsSub "error:" (lowerStr line)
                || containsSub "fatal" (lowerStr line))).take 50)
           else String.intercalate "\n" ((splitlines (log.getD "")).take 50)) := by
  have hlog : _log_has_errors (log.getD "")
      = (splitlines (log.getD "")).any (fun line =>
          containsSub "error:" (lowerStr line) || containsSub "fatal" (lowerStr line)) := by
    simp only [_log_has_errors, List.any_map]
    rfl
  simp only [validate_netlist]
  rw [if_neg hs, hok]
  dsimp only [_response]
  refine ⟨by rw [hlog], rfl, ?_, ?_, rfl, rfl⟩
  · intro hfalse
    simp [hfalse]
  · intro htrue
    simp [htrue]

/-- Witness for C3: a failing exit code with an error-reporting log produces
the `validation_failed` error with the exit code and the matching excerpt. -/
theorem validate_netlist_checks_exit_and_log_witness :
    (pyStrip "V1 1 0 1" ≠ "")
    ∧ (validate_netlist (.str "V1 1 0 1") none (.started [] 5 0 0 true)
        (some "Error: x") []).1.ok = false
    ∧ (validate_netlist (.str "V1 1 0 1") none (.started [] 5 0 0 true)
        (some "Error: x") []).1.error
      = some ⟨"validation_failed", "ngspice reported validation errors.",
          [("exit_code", .int 5), ("log_excerpt", .str "Error: x")]⟩ := by
  have h := validate_netlist_checks_exit_and_log "V1 1 0 1" none
    (.started [] 5 0 0 true) (some "Error: x") []
    ⟨[], [], false, false, 5, 0, [], []⟩ (by decide) rfl
  have hok0 : (validate_netlist (.str "V1 1 0 1") none (.started [] 5 0 0 true)
      (some "Error: x") []).1.ok = false := by
    rw [h.1]; rfl
  have herr := h.2.2.1 hok0
  exact ⟨by decide, hok0, herr.trans rfl⟩

/-- C7: `version` first invokes `ngspice -v`; it invokes `ngspice -V` with
the same limits exactly when the first invocation returned with a non-zero
exit code; the envelope's `ok` is true exactly when the final result is a
return with exit code 0; files are always empty; a non-zero final exit code
yields the `process_failed` error, and a `RunnerError` from either
invocation yields an envelope with that error type and metrics
`{elapsed_ms: 0, exit_code: -1}`. -/
theorem version_probes_and_retries (limits : Option (List (String × PyVal)))
    (w1 w2 : SpawnResult) :
    (version limits w1 w2).2.map (fun c => c.argv)
      = (if versionRetries (run_process ["ngspice", "-v"] "tmp"
            (_build_limits limits).timeout_ms (_build_limits limits).max_stdout_bytes
            (_build_limits limits).max_stderr_bytes w1)
         then [["ngspice", "-v"], ["ngspice", "-V"]] else [["ngspice", "-v"]])
    ∧ (version limits w1 w2).1.files = []
    ∧ ((version limits w1 w2).1.ok
        = match versionFinalResult
            (run_process ["ngspice", "-v"] "tmp" (_build_limits limits).timeout_ms
              (_build_limits limits).max_stdout_bytes (_build_limits limits).max_stderr_bytes w1)
            (run_process ["ngspice", "-V"] "tmp" (_build_limits limits).timeout_ms
              (_build_limits limits).max_stdout_bytes (_build_limits limits).max_stderr_bytes w2) with
          | .ok o => o.exitCode == 0
          | .error _ => false)
    ∧ ((version limits w1 w2).1.error
        = match versionFinalResult
            (run_process ["ngspice", "-v"] "tmp" (_build_limits limits).timeout_ms
              (_build_limits limits).max_stdout_bytes (_build_limits limits).max_stderr_bytes w1)
            (run_process ["ngspice", "-V"] "tmp" (_build_limits limits).timeout_ms
              (_build_limits limits).max_stdout_bytes (_build_limits limits).max_stderr_bytes w2) with
          | .error e => some ⟨e.errorType, e.message, e.details⟩
          | .ok o => if o.exitCode == 0 then none
              else some ⟨"process_failed", "ngspice version command failed.", []⟩)
    ∧ ((version limits w1 w2).1.metrics
        = match versionFinalResult
            (run_process ["ngspice", "-v"] "tmp" (_build_limits limits).timeout_ms
              (_build_limits limits).max_stdout_bytes (_build_limits limits).max_stderr_bytes w1)
            (run_process ["ngspice", "-V"] "tmp" (_build_limits limits).timeout_ms
              (_build_limits limits).max_stdout_bytes (_build_limits limits).max_stderr_bytes w2) with
          | .error _ => ⟨0, -1⟩
          | .ok o => ⟨(o.elapsed_ms : Int), o.exitCode⟩) := by
  rcases h1 : (run_process ["ngspice", "-v"] "tmp" (_build_limits limits).timeout_ms
      (_build_limits limits).max_stdout_bytes (_build_limits limits).max_stderr_bytes
      w1).result with e | o1
  · simp [version, versionRetries, versionFinalResult, h1, _error_response]
  · by_cases hz : o1.exitCode = 0
    · simp [version, versionRetries, versionFinalResult, h1, hz,
        version_finalize, _response]
    · rcases h2 : (run_process ["ngspice", "-V"] "tmp" (_build_limits limits).timeout_ms
          (_build_limits limits).max_stdout_bytes (_build_limits limits).max_stderr_bytes
          w2).result with e2 | o2
      · simp [version, versionRetries, versionFinalResult, h1, h2, hz, _error_response]
      · simp [version, versionRetries, versionFinalResult, h1, h2, hz,
          version_finalize, _response]

/-- Counterexample for C6 as stated: the payload
`{tool: "ngspice", op: "validate_netlist", inputs: []}` carries an `inputs`
field that is present and is a list, not an object, yet `handle_run` does not
fail with `invalid_request`: the falsy `[]` is silently replaced by `{}` by
Python's `or`-defaulting and validation passes, so the request reaches the
adapter and fails later with `invalid_input` instead. -/
theorem handle_run_list_inputs_not_invalid_request :
    (Server.handle_run
        (.dict [("tool", .str "ngspice"), ("op", .str "validate_netlist"),
          ("inputs", .list [])])
        ⟨.fileNotFound, .fileNotFound, none, []⟩).error.map (·.type)
      = some "invalid_input"
    ∧ some "invalid_input" ≠ some "invalid_request" := by
  exact ⟨rfl, by decide⟩

/-- C6 (amended): after `or`-defaulting (which replaces an absent *or falsy*
`inputs`/`limits` — null, false, 0, empty string, empty list — by the empty
object), a remaining non-object value, which is necessarily truthy, makes
`handle_run` return the `invalid_request` envelope with empty
stdout/stderr/files and metrics `{elapsed_ms: 0, exit_code: -1}`. -/
theorem handle_run_truthy_nonobject_invalid_request
    (kvs : List (String × PyVal)) (w : Server.OpWorld)
    (htool : pyLookup "tool" kvs = some (.str "ngspice"))
    (hop : pyLookup "op" kvs = some (.str "version")
      ∨ pyLookup "op" kvs = some (.str "smoketest")
      ∨ pyLookup "op" kvs = some (.str "validate_netlist")) :
    (∀ v, pyLookup "inputs" kvs = some v → pyTruthy v = true → pyIsDict v = false →
      Server.handle_run (.dict kvs) w
        = ⟨false, "", "", [], ⟨0, -1⟩,
            some ⟨"invalid_request", "inputs must be an object.", []⟩⟩)
    ∧ (∀ v, pyIsDict (pyOrElse ((pyLookup "inputs" kvs).getD .null) (.dict [])) = true →
        pyLookup "limits" kvs = some v → pyTruthy v = true → pyIsDict v = false →
        Server.handle_run (.dict kvs) w
          = ⟨false, "", "", [], ⟨0, -1⟩,
              some ⟨"invalid_request", "limits must be an object.", []⟩⟩) := by
  constructor
  · intro v hv htr hnd
    simp only [Server.handle_run, htool, hv]
    rcases hop with h | h | h <;>
      · simp only [h]
        norm_num [pyIsStrEq, pyOrElse, htr]
        cases v <;> simp_all [pyIsDict, Server.error_response]
  · intro v hdin hv htr hnd
    rcases hin : pyOrElse ((pyLookup "inputs" kvs).getD .null) (.dict []) with
      _ | _ | _ | _ | _ | ikvs <;> simp [hin, pyIsDict] at hdin
    simp only [Server.handle_run, htool, hv, hin]
    rcases hop with h | h | h <;>
      · simp only [h]
        norm_num [pyIsStrEq, pyOrElse, htr]
        cases v <;> simp_all [pyIsDict, Server.error_response]

/-- Witness for C6 (amended): a truthy non-object `inputs` (a non-empty
string) is rejected with `invalid_request`. -/
theorem handle_run_truthy_nonobject_invalid_request_witness :
    Server.handle_run
        (.dict [("tool", .str "ngspice"), ("op", .str "version"),
          ("inputs", .str "nope")])
        ⟨.fileNotFound, .fileNotFound, none, []⟩
      = ⟨false, "", "", [], ⟨0, -1⟩,
          some ⟨"invalid_request", "inputs must be an object.", []⟩⟩ := by
  exact (handle_run_truthy_nonobject_invalid_request
    [("tool", .str "ngspice"), ("op", .str "version"), ("inputs", .str "nope")]
    ⟨.fileNotFound, .fileNotFound, none, []⟩ rfl (Or.inl rfl)).1
    (.str "nope") rfl rfl rfl

/-- C10 (implicit): the limits merge performs no range validation, so a
caller-supplied non-positive integer for `timeout_ms`, `max_stdout_bytes` or
`max_stderr_bytes` passes the merge, is rejected by the Runner's
precondition check before any spawn, and each adapter operation returns the
caught `invalid_request` envelope with metrics `{elapsed_ms: 0, exit_code:
-1}` while spawning no process. -/
theorem nonpositive_limits_rejected_without_spawn
    (kvs : List (String × PyVal)) (w1 w2 w3 w4 : SpawnResult)
    (log : Option String) (dir : List DirEntry) (s : String)
    (hs : pyStrip s ≠ "")
    (h : (∃ n, pyLookup "timeout_ms" kvs = some (.int n) ∧ n ≤ 0)
       ∨ (∃ n, pyLookup "max_stdout_bytes" kvs = some (.int n) ∧ n ≤ 0)
       ∨ (∃ n, pyLookup "max_stderr_bytes" kvs = some (.int n) ∧ n ≤ 0)) :
    noSpawnInvalidRequest (version (some kvs) w1 w2)
    ∧ noSpawnInvalidRequest (smoketest (some kvs) w3 dir)
    ∧ noSpawnInvalidRequest (validate_netlist (.str s) (some kvs) w4 log dir) := by
  have hbad : (_build_limits (some kvs)).timeout_ms ≤ 0
      ∨ (_build_limits (some kvs)).max_stdout_bytes ≤ 0
      ∨ (_build_limits (some kvs)).max_stderr_bytes ≤ 0 := by
    rcases h with ⟨n, hn, hneg⟩ | ⟨n, hn, hneg⟩ | ⟨n, hn, hneg⟩
    · left
      rw [build_limits_eq]
      simpa [overrideOrDefault, hn, pyIsInt, pyToInt] using hneg
    · right; left
      rw [build_limits_eq]
      simpa [overrideOrDefault, hn, pyIsInt, pyToInt] using hneg
    · right; right
      rw [build_limits_eq]
      simpa [overrideOrDefault, hn, pyIsInt, pyToInt] using hneg
  refine ⟨?_, ?_, ?_⟩
  · obtain ⟨⟨e, he, het⟩, hsp, -⟩ := run_process_guard ["ngspice", "-v"] "tmp"
      (_build_limits (some kvs)).timeout_ms (_build_limits (some kvs)).max_stdout_bytes
      (_build_limits (some kvs)).max_stderr_bytes w1 (Or.inr hbad)
    simp only [noSpawnInvalidRequest, version]
    rw [he]
    refine ⟨rfl, by simp [_error_response, het], rfl, ?_⟩
    intro c hc
    simp only [List.mem_singleton] at hc
    subst hc
    simpa using hsp
  · obtain ⟨⟨e, he, het⟩, hsp, -⟩ := run_process_guard
      ["ngspice", "-b", "-r", "smoke.raw", "-o", "smoke.log", "smoke.cir"] "tmp"
      (_build_limits (some kvs)).timeout_ms (_build_limits (some kvs)).max_stdout_bytes
      (_build_limits (some kvs)).max_stderr_bytes w3 (Or.inr hbad)
    simp only [noSpawnInvalidRequest, smoketest]
    rw [he]
    refine ⟨rfl, by simp [_error_response, het], rfl, ?_⟩
    intro c hc
    simp only [List.mem_singleton] at hc
    subst hc
    simpa using hsp
  · obtain ⟨⟨e, he, het⟩, hsp, -⟩ := run_process_guard
      ["ngspice", "-b", "-o", "validate.log", "input.cir"] "tmp"
      (_build_limits (some kvs)).timeout_ms (_build_limits (some kvs)).max_stdout_bytes
      (_build_limits (some kvs)).max_stderr_bytes w4 (Or.inr hbad)
    simp only [noSpawnInvalidRequest, validate_netlist]
    rw [if_neg hs, he]
    refine ⟨rfl, by simp [_error_response, het], rfl, ?_⟩
    intro c hc
    simp only [List.mem_singleton] at hc
    subst hc
    simpa using hsp

/-- Witness for C10: `{timeout_ms: 0}` makes all three operations report
`invalid_request`. -/
theorem nonpositive_limits_rejected_without_spawn_witness :
    (version (some [("timeout_ms", PyVal.int 0)])
        .fileNotFound .fileNotFound).1.error.map (·.type) = some "invalid_request"
    ∧ (smoketest (some [("timeout_ms", PyVal.int 0)])
        .fileNotFound []).1.error.map (·.type) = some "invalid_request"
    ∧ (validate_netlist (.str ".end") (some [("timeout_ms", PyVal.int 0)])
        .fileNotFound none []).1.error.map (·.type) = some "invalid_request" := by
  have h := nonpositive_limits_rejected_without_spawn
    [("timeout_ms", PyVal.int 0)] .fileNotFound .fileNotFound .fileNotFound
    .fileNotFound none [] ".end" (by decide)
    (Or.inl ⟨0, rfl, le_refl 0⟩)
  exact ⟨h.1.2.1, h.2.1.2.1, h.2.2.2.1⟩

end Claims

end AutoSage
